import Mathlib

/-!
Shallow embedding of `stocks_dashboard.py`, a Streamlit stock dashboard with a
three-stage pipeline: `get_stock_data` (fetch via yfinance and validate),
`calculate_indicators` (conditionally append technical-indicator columns) and
`plot_stock_data` (build Plotly chart specifications).  Pandas data frames are
modelled as an index (the date axis, as abstract naturals) together with an
ordered association list of named columns of optional rationals (`none` = NaN).
External collaborators (yfinance, the `ta` indicator library, Streamlit,
Plotly) are modelled at their interfaces: the fetch result is an input, the
`ta` formulas are an abstract function bundle, and Streamlit/Plotly effects
are reified as returned message lists and chart-specification values.
-/

set_option autoImplicit false

namespace StocksDashboard

/-- A pandas Series of floats: a list of cells, `none` standing for NaN. -/
abbrev Series := List (Option ℚ)

/-- A pandas DataFrame: a row index (dates, abstracted to naturals) plus an
ordered list of named columns.  In a well-formed frame every column has as
many cells as the index has entries. -/
structure DataFrame where
  idx : List Nat
  cols : List (String × Series)
  deriving DecidableEq

namespace DataFrame

/-- Column lookup on the underlying association list (first match wins). -/
def getColAux : List (String × Series) → String → Option Series
  | [], _ => none
  | c :: rest, n => if c.1 = n then some c.2 else getColAux rest n

/-- `df[name]` as a total lookup returning `Option`. -/
def getCol (df : DataFrame) (n : String) : Option Series :=
  getColAux df.cols n

/-- `name in df.columns`. -/
def hasCol (df : DataFrame) (n : String) : Bool :=
  (df.getCol n).isSome

/-- Replace the first column named `n` (keeping its position), or append a new
column at the end — the semantics of `df[name] = series` in pandas for frames
without duplicate column names. -/
def setColAux : List (String × Series) → String → Series → List (String × Series)
  | [], n, vs => [(n, vs)]
  | c :: rest, n, vs => if c.1 = n then (c.1, vs) :: rest else c :: setColAux rest n vs

/-- `df[name] = series`. -/
def setCol (df : DataFrame) (n : String) (vs : Series) : DataFrame :=
  ⟨df.idx, setColAux df.cols n vs⟩

/-- `df.empty`: true when the frame has no rows or no columns. -/
def empty (df : DataFrame) : Bool :=
  df.idx.isEmpty || df.cols.isEmpty

/-- `len(df)`: the number of rows. -/
def len (df : DataFrame) : Nat :=
  df.idx.length

end DataFrame

/-- Keep the elements of `xs` at the positions where `mask` holds. -/
def maskFilter {α : Type} : List Bool → List α → List α
  | b :: bs, x :: xs => if b then x :: maskFilter bs xs else maskFilter bs xs
  | _, _ => []

/-- `df.dropna(subset=[\x27Close\x27], how=\x27any\x27)`: discard every row whose
closing price is NaN.  Raises (modelled as `Except.error`) when the frame has
no `Close` column, as pandas does. -/
def dropnaClose (df : DataFrame) : Except String DataFrame :=
  match df.getCol "Close" with
  | none => .error "KeyError: [\x27Close\x27]"
  | some cv =>
    let mask := cv.map Option.isSome
    .ok ⟨maskFilter mask df.idx, df.cols.map fun c => (c.1, maskFilter mask c.2)⟩

namespace DataFrame

theorem getColAux_setColAux (l : List (String × Series)) (n m : String) (vs : Series) :
    getColAux (setColAux l n vs) m = if m = n then some vs else getColAux l m := by
  induction l with
  | nil =>
    by_cases h : m = n <;> simp [setColAux, getColAux, h]
    intro h'
    exact absurd h'.symm h
  | cons c rest ih =>
    by_cases hcn : c.1 = n
    · by_cases hmn : m = n
      · subst hmn
        simp [setColAux, getColAux, hcn]
      · simp only [setColAux, if_pos hcn, getColAux]
        have hcm : ¬ c.1 = m := fun h => hmn (h ▸ hcn)
        simp [hcm, hmn]
    · by_cases hcm : c.1 = m
      · have hmn : ¬ m = n := fun h => hcn (by rw [hcm, h])
        simp [setColAux, getColAux, hcn, hcm, hmn]
      · simp [setColAux, getColAux, hcn, hcm, ih]

theorem getCol_setCol (df : DataFrame) (n m : String) (vs : Series) :
    (df.setCol n vs).getCol m = if m = n then some vs else df.getCol m :=
  getColAux_setColAux df.cols n m vs

theorem idx_setCol (df : DataFrame) (n : String) (vs : Series) :
    (df.setCol n vs).idx = df.idx := rfl

theorem len_setCol (df : DataFrame) (n : String) (vs : Series) :
    (df.setCol n vs).len = df.len := rfl

theorem hasCol_setCol (df : DataFrame) (n m : String) (vs : Series) :
    (df.setCol n vs).hasCol m = if m = n then true else df.hasCol m := by
  unfold hasCol
  rw [getCol_setCol]
  by_cases h : m = n <;> simp [h]

theorem getColAux_mapVals (f : Series → Series) (l : List (String × Series)) (m : String) :
    getColAux (l.map fun c => (c.1, f c.2)) m = (getColAux l m).map f := by
  induction l with
  | nil => simp [getColAux]
  | cons c rest ih =>
    by_cases h : c.1 = m <;> simp [getColAux, h, ih]

end DataFrame

theorem dropnaClose_ok {df d' : DataFrame} (h : dropnaClose df = .ok d') :
    ∃ cv, df.getCol "Close" = some cv ∧
      d'.idx = maskFilter (cv.map Option.isSome) df.idx ∧
      ∀ m, d'.getCol m = (df.getCol m).map (maskFilter (cv.map Option.isSome)) := by
  unfold dropnaClose at h
  cases hc : df.getCol "Close" with
  | none => rw [hc] at h; cases h
  | some cv =>
    rw [hc] at h
    refine ⟨cv, rfl, ?_, ?_⟩
    · cases h; rfl
    · intro m
      cases h
      exact DataFrame.getColAux_mapVals _ df.cols m

theorem hasCol_of_dropnaClose {df d' : DataFrame} (h : dropnaClose df = .ok d') (m : String) :
    d'.hasCol m = df.hasCol m := by
  obtain ⟨cv, _, _, hcols⟩ := dropnaClose_ok h
  unfold DataFrame.hasCol
  rw [hcols m]
  cases df.getCol m <;> simp

theorem maskFilter_all_false {α : Type} (mask : List Bool) (xs : List α)
    (h : ∀ b ∈ mask, b = false) : maskFilter mask xs = [] := by
  induction mask generalizing xs with
  | nil => cases xs <;> rfl
  | cons b bs ih =>
    cases xs with
    | nil => rfl
    | cons x xs' =>
      have hb : b = false := h b (List.mem_cons_self b bs)
      rw [maskFilter, hb]
      simp only [Bool.false_eq_true, if_false]
      exact ih xs' (fun b' hb' => h b' (List.mem_cons_of_mem b hb'))

/-! ### Substring containment, for "the error message names the ticker" -/

/-- `seqStarts nd l`: the character sequence `nd` is an initial segment of `l`. -/
def seqStarts : List Char → List Char → Bool
  | [], _ => true
  | _ :: _, [] => false
  | a :: as, b :: bs => a == b && seqStarts as bs

/-- `seqIn nd l`: the character sequence `nd` occurs contiguously inside `l`. -/
def seqIn (nd : List Char) : List Char → Bool
  | [] => nd.isEmpty
  | c :: rest => seqStarts nd (c :: rest) || seqIn nd rest

/-- `nd` occurs as a substring of `hay`. -/
def strHas (hay nd : String) : Bool :=
  seqIn nd.data hay.data

theorem sdata_append (a b : String) : (a ++ b).data = a.data ++ b.data := rfl

theorem seqStarts_self_append (l m : List Char) : seqStarts l (l ++ m) = true := by
  induction l with
  | nil => rfl
  | cons a as ih => simp [seqStarts, ih]

theorem seqIn_of_seqStarts {nd m : List Char} (h : seqStarts nd m = true) :
    seqIn nd m = true := by
  cases m with
  | nil =>
    cases nd with
    | nil => rfl
    | cons a as => simp [seqStarts] at h
  | cons c rest => simp [seqIn, h]

theorem seqIn_append_left (pre : List Char) {nd m : List Char} (h : seqIn nd m = true) :
    seqIn nd (pre ++ m) = true := by
  induction pre with
  | nil => exact h
  | cons p ps ih => simp [seqIn, ih]

theorem seqIn_self_append (l m : List Char) : seqIn l (l ++ m) = true :=
  seqIn_of_seqStarts (seqStarts_self_append l m)

/-- A string of the shape `a ++ t ++ b` contains `t`. -/
theorem strHas_mid (a t b : String) : strHas (a ++ t ++ b) t = true := by
  unfold strHas
  rw [sdata_append, sdata_append, List.append_assoc]
  exact seqIn_append_left a.data (seqIn_self_append t.data b.data)

/-- A string of the shape `a ++ t` contains `t`. -/
theorem strHas_right (a t : String) : strHas (a ++ t) t = true := by
  unfold strHas
  rw [sdata_append]
  exact seqIn_append_left a.data (by
    have := seqIn_self_append t.data []
    simpa using this)

/-! ### Stage 1: data acquisition (`get_stock_data`) -/

/-- The frame shape returned by `yf.download`: either plain string column
labels, or a hierarchical (MultiIndex) labelling whose labels are level
tuples — flattening keeps the first level of each label. -/
inductive YFrame where
  | flat (idx : List Nat) (cols : List (String × Series))
  | multi (idx : List Nat) (cols : List ((String × String) × Series))
  deriving DecidableEq

namespace YFrame

/-- `data.empty` on the raw provider frame. -/
def empty : YFrame → Bool
  | .flat idx cols => idx.isEmpty || cols.isEmpty
  | .multi idx cols => idx.isEmpty || cols.isEmpty

/-- Column normalization: a MultiIndex column scheme is flattened to the
first level of each column label (`data.columns = [col[0] for col in
data.columns]`); plain labels are kept as they are. -/
def toDF : YFrame → DataFrame
  | .flat idx cols => ⟨idx, cols⟩
  | .multi idx cols => ⟨idx, cols.map fun c => (c.1.1, c.2)⟩

end YFrame

/-- The outcome of the `yf.download` call: an exception carrying its message,
or a result that may be absent. -/
def FetchResult := Except String (Option YFrame)

/-- `get_stock_data(ticker, start, end)`.  The download outcome is an input;
the returned pair is the fetched frame (or `None`) together with the list of
`st.error` messages emitted. -/
def get_stock_data (ticker : String) (r : FetchResult) :
    Option DataFrame × List String :=
  match r with
  | .error e =>
    (none, [" Error fetching data for " ++ ticker ++ ": " ++ e])
  | .ok none =>
    (none, ["⚠ No data available for " ++ ticker ++ ". Please check the symbol and try again."])
  | .ok (some yf) =>
    if yf.empty then
      (none, ["⚠ No data available for " ++ ticker ++ ". Please check the symbol and try again."])
    else
      let data := yf.toDF
      if data.hasCol "Close" then (some data, [])
      else (none, ["\x27Close\x27 column is missing. Unable to compute indicators."])

/-! ### Stage 2: indicator derivation (`calculate_indicators`) -/

/-- The `ta` technical-analysis library, §6's "indicator formula library":
pure functions from a closing-price series (and window parameters) to derived
series.  The pipeline is parametric in this bundle; it is assumed correct and
stable, so only the shape of the calls is fixed here. -/
structure TaLib where
  sma_indicator : Series → Nat → Series
  ema_indicator : Series → Nat → Series
  bollinger_hband : Series → Nat → Nat → Series
  bollinger_lband : Series → Nat → Nat → Series
  rsi : Series → Nat → Series
  macd : Series → Series
  macd_signal : Series → Series

/-- `calculate_indicators(data, show_sma, sma_period, ..., show_macd)`.
Returns `Except` because `dropna(subset=[\x27Close\x27])` raises on a frame
without a `Close` column; every other path is total. -/
def calculate_indicators (ta : TaLib) (data : Option DataFrame)
    (show_sma : Bool) (sma_period : Nat) (show_ema : Bool) (ema_period : Nat)
    (show_bollinger show_rsi show_macd : Bool) :
    Except String (Option DataFrame) :=
  match data with
  | none => .ok none
  | some d =>
    if d.empty then .ok none
    else
      match dropnaClose d with
      | .error e => .error e
      | .ok d1 =>
        match d1.getCol "Close" with
        | none => .error "KeyError: \x27Close\x27"
        | some close =>
          let d2 := if show_sma && decide (sma_period < d1.len) then
              d1.setCol ("SMA_" ++ toString sma_period) (ta.sma_indicator close sma_period)
            else d1
          let d3 := if show_ema && decide (ema_period < d2.len) then
              d2.setCol ("EMA_" ++ toString ema_period) (ta.ema_indicator close ema_period)
            else d2
          let d4 := if show_bollinger && decide (20 < d3.len) then
              (d3.setCol "BB_high" (ta.bollinger_hband close 20 2)).setCol "BB_low"
                (ta.bollinger_lband close 20 2)
            else d3
          let d5 := if show_rsi && decide (14 < d4.len) then
              d4.setCol "RSI" (ta.rsi close 14)
            else d4
          let d6 := if show_macd && decide (26 < d5.len) then
              (d5.setCol "MACD" (ta.macd close)).setCol "MACD_signal" (ta.macd_signal close)
            else d5
          .ok (some d6)

/-! ### Stage 3: presentation (`plot_stock_data`) -/

/-- One Plotly line trace: legend label, colour, x values (the date index) and
y values. -/
structure Trace where
  name : String
  color : String
  xs : List Nat
  ys : Series
  deriving DecidableEq

/-- One chart specification: its traces in draw order, its horizontal
reference lines (value, dash style, colour), and the layout fields set by the
source (title, axis titles, template). -/
structure Chart where
  traces : List Trace
  hlines : List (ℚ × String × String)
  title : Option String
  xTitle : Option String
  yTitle : Option String
  template : Option String
  deriving DecidableEq

/-- What `plot_stock_data` pushes to the Streamlit page, in order: section
subheaders and rendered charts. -/
inductive RenderItem where
  | subheader (s : String)
  | chart (c : Chart)
  deriving DecidableEq

/-- The SMA overlay block: one orange trace when the toggle is on and the
column exists; the column access raises on a missing column (unreachable
under the guard). -/
def smaBlock (df : DataFrame) (show_sma : Bool) (p : Nat) : Except String (List Trace) :=
  if show_sma && df.hasCol ("SMA_" ++ toString p) then
    match df.getCol ("SMA_" ++ toString p) with
    | some s => .ok [⟨"SMA " ++ toString p, "orange", df.idx, s⟩]
    | none => .error ("KeyError: SMA_" ++ toString p)
  else .ok []

/-- The EMA overlay block: one green trace under its guard. -/
def emaBlock (df : DataFrame) (show_ema : Bool) (p : Nat) : Except String (List Trace) :=
  if show_ema && df.hasCol ("EMA_" ++ toString p) then
    match df.getCol ("EMA_" ++ toString p) with
    | some s => .ok [⟨"EMA " ++ toString p, "green", df.idx, s⟩]
    | none => .error ("KeyError: EMA_" ++ toString p)
  else .ok []

/-- The Bollinger overlay block: the guard tests only `BB_high`, then both
band columns are read (reading `BB_low` raises if it is absent). -/
def bbBlock (df : DataFrame) (show_bollinger : Bool) : Except String (List Trace) :=
  if show_bollinger && df.hasCol "BB_high" then
    match df.getCol "BB_high", df.getCol "BB_low" with
    | some hb, some lb =>
      .ok [⟨"Bollinger High", "red", df.idx, hb⟩, ⟨"Bollinger Low", "purple", df.idx, lb⟩]
    | _, _ => .error "KeyError: BB_low"
  else .ok []

/-- The secondary RSI section: a subheader and a chart with the yellow RSI
line plus dotted horizontal reference lines at 70 (red) and 30 (green). -/
def rsiBlock (df : DataFrame) (show_rsi : Bool) : Except String (List RenderItem) :=
  if show_rsi && df.hasCol "RSI" then
    match df.getCol "RSI" with
    | some r =>
      .ok [.subheader "Relative Strength Index (RSI)",
        .chart ⟨[⟨"RSI", "yellow", df.idx, r⟩],
          [((70 : ℚ), "dot", "red"), ((30 : ℚ), "dot", "green")], none, none, none, none⟩]
    | none => .error "KeyError: RSI"
  else .ok []

/-- The third MACD section: the guard tests only `MACD`, then both the MACD
and signal columns are read (reading `MACD_signal` raises if absent). -/
def macdBlock (df : DataFrame) (show_macd : Bool) : Except String (List RenderItem) :=
  if show_macd && df.hasCol "MACD" then
    match df.getCol "MACD", df.getCol "MACD_signal" with
    | some m, some s =>
      .ok [.subheader "MACD Indicator",
        .chart ⟨[⟨"MACD", "cyan", df.idx, m⟩, ⟨"Signal Line", "magenta", df.idx, s⟩],
          [], none, none, none, none⟩]
    | _, _ => .error "KeyError: MACD_signal"
  else .ok []

/-- `plot_stock_data(data, ticker, ...)`: returns the ordered list of items
pushed to the page — the primary dark-themed price chart (close price first,
then the enabled-and-present overlays) followed by the conditional RSI and
MACD sections. -/
def plot_stock_data (data : DataFrame) (ticker : String)
    (show_sma : Bool) (sma_period : Nat) (show_ema : Bool) (ema_period : Nat)
    (show_bollinger show_rsi show_macd : Bool) :
    Except String (List RenderItem) :=
  match data.getCol "Close" with
  | none => .error "KeyError: \x27Close\x27"
  | some close =>
    match smaBlock data show_sma sma_period with
    | .error e => .error e
    | .ok ts1 =>
      match emaBlock data show_ema ema_period with
      | .error e => .error e
      | .ok ts2 =>
        match bbBlock data show_bollinger with
        | .error e => .error e
        | .ok ts3 =>
          match rsiBlock data show_rsi with
          | .error e => .error e
          | .ok ri =>
            match macdBlock data show_macd with
            | .error e => .error e
            | .ok mi =>
              .ok ([RenderItem.chart
                  ⟨⟨"Close Price", "blue", data.idx, close⟩ :: (ts1 ++ ts2 ++ ts3),
                    [], some (ticker ++ " Stock Price"), some "Date", some "Price",
                    some "plotly_dark"⟩] ++ ri ++ mi)

/-! ### The Streamlit entry point (`main`) -/

/-- The hard-coded dropdown of §`main`: display label → ticker symbol, in
insertion order. -/
def stock_list : List (String × String) :=
  [("Apple (AAPL)", "AAPL"), ("Tesla (TSLA)", "TSLA"), ("Amazon (AMZN)", "AMZN"),
   ("Microsoft (MSFT)", "MSFT"), ("Google (GOOGL)", "GOOGL"), ("NVIDIA (NVDA)", "NVDA"),
   ("Meta (META)", "META"), ("Netflix (NFLX)", "NFLX")]

/-- `stock_list[selected_stock]`: the ticker passed to `get_stock_data`,
`None` when the selection is not a dropdown key (the selectbox only ever
yields keys). -/
def mainTicker (sel : String) : Option String :=
  stock_list.lookup sel

/-- What one interaction of `main` does after the widgets are read. -/
inductive MainOutcome where
  | raised (e : String)
  | fetchFailed (msgs : List String)
  | noValidData
  | plotted (items : List RenderItem)
  deriving DecidableEq

/-- One interaction of `main` past widget reading: look up the ticker, fetch,
derive, then either render or show one of the two error messages
("Failed to fetch stock data. ..." / " No valid data for plotting."). -/
def main_pipeline (ta : TaLib) (sel : String) (r : FetchResult)
    (show_sma : Bool) (sma_period : Nat) (show_ema : Bool) (ema_period : Nat)
    (show_bollinger show_rsi show_macd : Bool) : MainOutcome :=
  match mainTicker sel with
  | none => .raised ("KeyError: " ++ sel)
  | some ticker =>
    match get_stock_data ticker r with
    | (none, msgs) =>
      .fetchFailed (msgs ++ ["Failed to fetch stock data. Check the ticker symbol or try again later."])
    | (some d, _) =>
      match calculate_indicators ta (some d) show_sma sma_period show_ema ema_period
          show_bollinger show_rsi show_macd with
      | .error e => .raised e
      | .ok none => .noValidData
      | .ok (some d2) =>
        match plot_stock_data d2 ticker show_sma sma_period show_ema ema_period
            show_bollinger show_rsi show_macd with
        | .error e => .raised e
        | .ok items => .plotted items

/-! ### Helper lemmas -/

theorem hasCol_getCol {df : DataFrame} {n : String} (h : df.hasCol n = true) :
    ∃ s, df.getCol n = some s := by
  unfold DataFrame.hasCol at h
  cases hg : df.getCol n with
  | none => rw [hg] at h; cases h
  | some s => exact ⟨s, rfl⟩

theorem smaBlock_eq (df : DataFrame) (b : Bool) (p : Nat) :
    smaBlock df b p = .ok (if b && df.hasCol ("SMA_" ++ toString p) then
      [⟨"SMA " ++ toString p, "orange", df.idx, (df.getCol ("SMA_" ++ toString p)).getD []⟩]
    else []) := by
  by_cases h : (b && df.hasCol ("SMA_" ++ toString p)) = true
  · have hc := (Bool.and_eq_true _ _).mp h |>.2
    obtain ⟨s, hg⟩ := hasCol_getCol hc
    simp [smaBlock, h, hg]
  · simp [smaBlock, h]

theorem emaBlock_eq (df : DataFrame) (b : Bool) (p : Nat) :
    emaBlock df b p = .ok (if b && df.hasCol ("EMA_" ++ toString p) then
      [⟨"EMA " ++ toString p, "green", df.idx, (df.getCol ("EMA_" ++ toString p)).getD []⟩]
    else []) := by
  by_cases h : (b && df.hasCol ("EMA_" ++ toString p)) = true
  · have hc := (Bool.and_eq_true _ _).mp h |>.2
    obtain ⟨s, hg⟩ := hasCol_getCol hc
    simp [emaBlock, h, hg]
  · simp [emaBlock, h]

theorem bbBlock_eq (df : DataFrame) (b : Bool)
    (hlo : df.hasCol "BB_high" = true → df.hasCol "BB_low" = true) :
    bbBlock df b = .ok (if b && df.hasCol "BB_high" then
      [⟨"Bollinger High", "red", df.idx, (df.getCol "BB_high").getD []⟩,
       ⟨"Bollinger Low", "purple", df.idx, (df.getCol "BB_low").getD []⟩]
    else []) := by
  by_cases h : (b && df.hasCol "BB_high") = true
  · have hc := (Bool.and_eq_true _ _).mp h |>.2
    obtain ⟨s, hg⟩ := hasCol_getCol hc
    obtain ⟨s2, hg2⟩ := hasCol_getCol (hlo hc)
    simp [bbBlock, h, hg, hg2]
  · simp [bbBlock, h]

theorem rsiBlock_eq (df : DataFrame) (b : Bool) :
    rsiBlock df b = .ok (if b && df.hasCol "RSI" then
      [.subheader "Relative Strength Index (RSI)",
       .chart ⟨[⟨"RSI", "yellow", df.idx, (df.getCol "RSI").getD []⟩],
         [((70 : ℚ), "dot", "red"), ((30 : ℚ), "dot", "green")], none, none, none, none⟩]
    else []) := by
  by_cases h : (b && df.hasCol "RSI") = true
  · have hc := (Bool.and_eq_true _ _).mp h |>.2
    obtain ⟨s, hg⟩ := hasCol_getCol hc
    simp [rsiBlock, h, hg]
  · simp [rsiBlock, h]

theorem macdBlock_eq (df : DataFrame) (b : Bool)
    (hsig : df.hasCol "MACD" = true → df.hasCol "MACD_signal" = true) :
    macdBlock df b = .ok (if b && df.hasCol "MACD" then
      [.subheader "MACD Indicator",
       .chart ⟨[⟨"MACD", "cyan", df.idx, (df.getCol "MACD").getD []⟩,
         ⟨"Signal Line", "magenta", df.idx, (df.getCol "MACD_signal").getD []⟩],
         [], none, none, none, none⟩]
    else []) := by
  by_cases h : (b && df.hasCol "MACD") = true
  · have hc := (Bool.and_eq_true _ _).mp h |>.2
    obtain ⟨s, hg⟩ := hasCol_getCol hc
    obtain ⟨s2, hg2⟩ := hasCol_getCol (hsig hc)
    simp [macdBlock, h, hg, hg2]
  · simp [macdBlock, h]

/-- Reduction of `plot_stock_data` to its explicit output, under the
conditions that make all column reads succeed. -/
theorem plot_spec (data : DataFrame) (ticker : String)
    (b1 : Bool) (p1 : Nat) (b2 : Bool) (p2 : Nat) (b3 b4 b5 : Bool) (cs : Series)
    (hC : data.getCol "Close" = some cs)
    (hbb : data.hasCol "BB_high" = true → data.hasCol "BB_low" = true)
    (hm : data.hasCol "MACD" = true → data.hasCol "MACD_signal" = true) :
    plot_stock_data data ticker b1 p1 b2 p2 b3 b4 b5 = .ok (
      [RenderItem.chart
        ⟨⟨"Close Price", "blue", data.idx, cs⟩ ::
          ((if b1 && data.hasCol ("SMA_" ++ toString p1) then
              [⟨"SMA " ++ toString p1, "orange", data.idx,
                (data.getCol ("SMA_" ++ toString p1)).getD []⟩] else []) ++
           (if b2 && data.hasCol ("EMA_" ++ toString p2) then
              [⟨"EMA " ++ toString p2, "green", data.idx,
                (data.getCol ("EMA_" ++ toString p2)).getD []⟩] else []) ++
           (if b3 && data.hasCol "BB_high" then
              [⟨"Bollinger High", "red", data.idx, (data.getCol "BB_high").getD []⟩,
               ⟨"Bollinger Low", "purple", data.idx, (data.getCol "BB_low").getD []⟩] else [])),
          [], some (ticker ++ " Stock Price"), some "Date", some "Price", some "plotly_dark"⟩] ++
      (if b4 && data.hasCol "RSI" then
        [.subheader "Relative Strength Index (RSI)",
         .chart ⟨[⟨"RSI", "yellow", data.idx, (data.getCol "RSI").getD []⟩],
           [((70 : ℚ), "dot", "red"), ((30 : ℚ), "dot", "green")], none, none, none, none⟩]
       else []) ++
      (if b5 && data.hasCol "MACD" then
        [.subheader "MACD Indicator",
         .chart ⟨[⟨"MACD", "cyan", data.idx, (data.getCol "MACD").getD []⟩,
           ⟨"Signal Line", "magenta", data.idx, (data.getCol "MACD_signal").getD []⟩],
           [], none, none, none, none⟩]
       else [])) := by
  simp only [plot_stock_data, hC, smaBlock_eq, emaBlock_eq, bbBlock_eq data b3 hbb,
    rsiBlock_eq, macdBlock_eq data b5 hm]

/-! ### Column-name disequalities -/

theorem str_ne_of_head {a b : String} (h : a.data.head? ≠ b.data.head?) : a ≠ b :=
  fun e => h (congrArg (fun s => s.data.head?) e)

theorem head_sma (p : Nat) : ("SMA_" ++ toString p).data.head? = some 'S' := rfl

theorem head_ema (p : Nat) : ("EMA_" ++ toString p).data.head? = some 'E' := rfl

theorem sma_ne_ema (p q : Nat) : ("SMA_" ++ toString p) ≠ ("EMA_" ++ toString q) :=
  str_ne_of_head (by rw [head_sma, head_ema]; decide)

theorem sma_ne_bb_high (p : Nat) : ("SMA_" ++ toString p) ≠ "BB_high" :=
  str_ne_of_head (by rw [head_sma]; decide)

theorem sma_ne_bb_low (p : Nat) : ("SMA_" ++ toString p) ≠ "BB_low" :=
  str_ne_of_head (by rw [head_sma]; decide)

theorem sma_ne_rsi (p : Nat) : ("SMA_" ++ toString p) ≠ "RSI" :=
  str_ne_of_head (by rw [head_sma]; decide)

theorem sma_ne_macd (p : Nat) : ("SMA_" ++ toString p) ≠ "MACD" :=
  str_ne_of_head (by rw [head_sma]; decide)

theorem sma_ne_macds (p : Nat) : ("SMA_" ++ toString p) ≠ "MACD_signal" :=
  str_ne_of_head (by rw [head_sma]; decide)

theorem ema_ne_bb_high (p : Nat) : ("EMA_" ++ toString p) ≠ "BB_high" :=
  str_ne_of_head (by rw [head_ema]; decide)

theorem ema_ne_bb_low (p : Nat) : ("EMA_" ++ toString p) ≠ "BB_low" :=
  str_ne_of_head (by rw [head_ema]; decide)

theorem ema_ne_rsi (p : Nat) : ("EMA_" ++ toString p) ≠ "RSI" :=
  str_ne_of_head (by rw [head_ema]; decide)

theorem ema_ne_macd (p : Nat) : ("EMA_" ++ toString p) ≠ "MACD" :=
  str_ne_of_head (by rw [head_ema]; decide)

theorem ema_ne_macds (p : Nat) : ("EMA_" ++ toString p) ≠ "MACD_signal" :=
  str_ne_of_head (by rw [head_ema]; decide)

theorem close_ne_sma (p : Nat) : "Close" ≠ ("SMA_" ++ toString p) :=
  (str_ne_of_head (by rw [head_sma]; decide)).symm

theorem close_ne_ema (p : Nat) : "Close" ≠ ("EMA_" ++ toString p) :=
  (str_ne_of_head (by rw [head_ema]; decide)).symm

/-! ### The indicator chain, step by step -/

/-- The SMA branch of `calculate_indicators` as a frame transformer. -/
def smaStep (ta : TaLib) (cv : Series) (b : Bool) (p : Nat) (d : DataFrame) : DataFrame :=
  if b && decide (p < d.len) then d.setCol ("SMA_" ++ toString p) (ta.sma_indicator cv p) else d

/-- The EMA branch. -/
def emaStep (ta : TaLib) (cv : Series) (b : Bool) (p : Nat) (d : DataFrame) : DataFrame :=
  if b && decide (p < d.len) then d.setCol ("EMA_" ++ toString p) (ta.ema_indicator cv p) else d

/-- The Bollinger branch. -/
def bbStep (ta : TaLib) (cv : Series) (b : Bool) (d : DataFrame) : DataFrame :=
  if b && decide (20 < d.len) then
    (d.setCol "BB_high" (ta.bollinger_hband cv 20 2)).setCol "BB_low" (ta.bollinger_lband cv 20 2)
  else d

/-- The RSI branch. -/
def rsiStep (ta : TaLib) (cv : Series) (b : Bool) (d : DataFrame) : DataFrame :=
  if b && decide (14 < d.len) then d.setCol "RSI" (ta.rsi cv 14) else d

/-- The MACD branch. -/
def macdStep (ta : TaLib) (cv : Series) (b : Bool) (d : DataFrame) : DataFrame :=
  if b && decide (26 < d.len) then
    (d.setCol "MACD" (ta.macd cv)).setCol "MACD_signal" (ta.macd_signal cv)
  else d

/-- The five indicator branches in source order. -/
def indicatorChain (ta : TaLib) (cv : Series) (b1 : Bool) (p1 : Nat) (b2 : Bool) (p2 : Nat)
    (b3 b4 b5 : Bool) (d : DataFrame) : DataFrame :=
  macdStep ta cv b5 (rsiStep ta cv b4 (bbStep ta cv b3 (emaStep ta cv b2 p2 (smaStep ta cv b1 p1 d))))

/-- On a non-`None`, non-empty frame whose dropna succeeded,
`calculate_indicators` returns exactly the indicator chain applied to the
dropna result. -/
theorem calc_reduce (ta : TaLib) (b1 : Bool) (p1 : Nat) (b2 : Bool) (p2 : Nat) (b3 b4 b5 : Bool)
    {d d1 : DataFrame} (hne : d.empty = false) (hdrop : dropnaClose d = .ok d1)
    {cv : Series} (hcv : d1.getCol "Close" = some cv) :
    calculate_indicators ta (some d) b1 p1 b2 p2 b3 b4 b5 =
      .ok (some (indicatorChain ta cv b1 p1 b2 p2 b3 b4 b5 d1)) := by
  simp only [calculate_indicators, hne, hdrop, hcv, Bool.false_eq_true, if_false,
    indicatorChain, macdStep, rsiStep, bbStep, emaStep, smaStep]

theorem dropna_close_some {d d1 : DataFrame} (h : dropnaClose d = .ok d1) :
    ∃ cv, d1.getCol "Close" = some cv := by
  obtain ⟨cv0, hc, _, hcols⟩ := dropnaClose_ok h
  refine ⟨maskFilter (cv0.map Option.isSome) cv0, ?_⟩
  rw [hcols "Close", hc]
  rfl

namespace DataFrame

theorem hasCol_setCol_mono {df : DataFrame} {m : String} (n : String) (vs : Series)
    (h : df.hasCol m = true) : (df.setCol n vs).hasCol m = true := by
  rw [hasCol_setCol]
  by_cases hmn : m = n <;> simp [hmn, h]

end DataFrame

theorem len_smaStep (ta : TaLib) (cv : Series) (b : Bool) (p : Nat) (d : DataFrame) :
    (smaStep ta cv b p d).len = d.len := by
  unfold smaStep; split <;> simp [DataFrame.len_setCol]

theorem len_emaStep (ta : TaLib) (cv : Series) (b : Bool) (p : Nat) (d : DataFrame) :
    (emaStep ta cv b p d).len = d.len := by
  unfold emaStep; split <;> simp [DataFrame.len_setCol]

theorem len_bbStep (ta : TaLib) (cv : Series) (b : Bool) (d : DataFrame) :
    (bbStep ta cv b d).len = d.len := by
  unfold bbStep; split <;> simp [DataFrame.len_setCol]

theorem len_rsiStep (ta : TaLib) (cv : Series) (b : Bool) (d : DataFrame) :
    (rsiStep ta cv b d).len = d.len := by
  unfold rsiStep; split <;> simp [DataFrame.len_setCol]

theorem len_macdStep (ta : TaLib) (cv : Series) (b : Bool) (d : DataFrame) :
    (macdStep ta cv b d).len = d.len := by
  unfold macdStep; split <;> simp [DataFrame.len_setCol]

theorem getCol_smaStep_ne (ta : TaLib) (cv : Series) (b : Bool) (p : Nat) (d : DataFrame)
    {m : String} (h : m ≠ "SMA_" ++ toString p) :
    (smaStep ta cv b p d).getCol m = d.getCol m := by
  unfold smaStep; split
  · rw [DataFrame.getCol_setCol]; simp [h]
  · rfl

theorem getCol_emaStep_ne (ta : TaLib) (cv : Series) (b : Bool) (p : Nat) (d : DataFrame)
    {m : String} (h : m ≠ "EMA_" ++ toString p) :
    (emaStep ta cv b p d).getCol m = d.getCol m := by
  unfold emaStep; split
  · rw [DataFrame.getCol_setCol]; simp [h]
  · rfl

theorem getCol_bbStep_ne (ta : TaLib) (cv : Series) (b : Bool) (d : DataFrame)
    {m : String} (h1 : m ≠ "BB_high") (h2 : m ≠ "BB_low") :
    (bbStep ta cv b d).getCol m = d.getCol m := by
  unfold bbStep; split
  · rw [DataFrame.getCol_setCol, DataFrame.getCol_setCol]; simp [h1, h2]
  · rfl

theorem getCol_rsiStep_ne (ta : TaLib) (cv : Series) (b : Bool) (d : DataFrame)
    {m : String} (h : m ≠ "RSI") :
    (rsiStep ta cv b d).getCol m = d.getCol m := by
  unfold rsiStep; split
  · rw [DataFrame.getCol_setCol]; simp [h]
  · rfl

theorem getCol_macdStep_ne (ta : TaLib) (cv : Series) (b : Bool) (d : DataFrame)
    {m : String} (h1 : m ≠ "MACD") (h2 : m ≠ "MACD_signal") :
    (macdStep ta cv b d).getCol m = d.getCol m := by
  unfold macdStep; split
  · rw [DataFrame.getCol_setCol, DataFrame.getCol_setCol]; simp [h1, h2]
  · rfl

theorem hasCol_smaStep_self (ta : TaLib) (cv : Series) (b : Bool) (p : Nat) (d : DataFrame) :
    (smaStep ta cv b p d).hasCol ("SMA_" ++ toString p) =
      ((b && decide (p < d.len)) || d.hasCol ("SMA_" ++ toString p)) := by
  unfold smaStep
  by_cases h : (b && decide (p < d.len)) = true <;>
    simp [h, DataFrame.hasCol_setCol]

theorem hasCol_emaStep_self (ta : TaLib) (cv : Series) (b : Bool) (p : Nat) (d : DataFrame) :
    (emaStep ta cv b p d).hasCol ("EMA_" ++ toString p) =
      ((b && decide (p < d.len)) || d.hasCol ("EMA_" ++ toString p)) := by
  unfold emaStep
  by_cases h : (b && decide (p < d.len)) = true <;>
    simp [h, DataFrame.hasCol_setCol]

theorem hasCol_bbStep_high (ta : TaLib) (cv : Series) (b : Bool) (d : DataFrame) :
    (bbStep ta cv b d).hasCol "BB_high" =
      ((b && decide (20 < d.len)) || d.hasCol "BB_high") := by
  unfold bbStep
  by_cases h : (b && decide (20 < d.len)) = true <;>
    simp [h, DataFrame.hasCol_setCol]

theorem hasCol_bbStep_low (ta : TaLib) (cv : Series) (b : Bool) (d : DataFrame) :
    (bbStep ta cv b d).hasCol "BB_low" =
      ((b && decide (20 < d.len)) || d.hasCol "BB_low") := by
  unfold bbStep
  by_cases h : (b && decide (20 < d.len)) = true <;>
    simp [h, DataFrame.hasCol_setCol]

theorem hasCol_rsiStep_self (ta : TaLib) (cv : Series) (b : Bool) (d : DataFrame) :
    (rsiStep ta cv b d).hasCol "RSI" =
      ((b && decide (14 < d.len)) || d.hasCol "RSI") := by
  unfold rsiStep
  by_cases h : (b && decide (14 < d.len)) = true <;>
    simp [h, DataFrame.hasCol_setCol]

theorem hasCol_macdStep_macd (ta : TaLib) (cv : Series) (b : Bool) (d : DataFrame) :
    (macdStep ta cv b d).hasCol "MACD" =
      ((b && decide (26 < d.len)) || d.hasCol "MACD") := by
  unfold macdStep
  by_cases h : (b && decide (26 < d.len)) = true <;>
    simp [h, DataFrame.hasCol_setCol]

theorem hasCol_macdStep_signal (ta : TaLib) (cv : Series) (b : Bool) (d : DataFrame) :
    (macdStep ta cv b d).hasCol "MACD_signal" =
      ((b && decide (26 < d.len)) || d.hasCol "MACD_signal") := by
  unfold macdStep
  by_cases h : (b && decide (26 < d.len)) = true <;>
    simp [h, DataFrame.hasCol_setCol]

theorem hasCol_smaStep_ne (ta : TaLib) (cv : Series) (b : Bool) (p : Nat) (d : DataFrame)
    {m : String} (h : m ≠ "SMA_" ++ toString p) :
    (smaStep ta cv b p d).hasCol m = d.hasCol m := by
  unfold DataFrame.hasCol
  rw [getCol_smaStep_ne _ _ _ _ _ h]

theorem hasCol_emaStep_ne (ta : TaLib) (cv : Series) (b : Bool) (p : Nat) (d : DataFrame)
    {m : String} (h : m ≠ "EMA_" ++ toString p) :
    (emaStep ta cv b p d).hasCol m = d.hasCol m := by
  unfold DataFrame.hasCol
  rw [getCol_emaStep_ne _ _ _ _ _ h]

theorem hasCol_bbStep_ne (ta : TaLib) (cv : Series) (b : Bool) (d : DataFrame)
    {m : String} (h1 : m ≠ "BB_high") (h2 : m ≠ "BB_low") :
    (bbStep ta cv b d).hasCol m = d.hasCol m := by
  unfold DataFrame.hasCol
  rw [getCol_bbStep_ne _ _ _ _ h1 h2]

theorem hasCol_rsiStep_ne (ta : TaLib) (cv : Series) (b : Bool) (d : DataFrame)
    {m : String} (h : m ≠ "RSI") :
    (rsiStep ta cv b d).hasCol m = d.hasCol m := by
  unfold DataFrame.hasCol
  rw [getCol_rsiStep_ne _ _ _ _ h]

theorem hasCol_macdStep_ne (ta : TaLib) (cv : Series) (b : Bool) (d : DataFrame)
    {m : String} (h1 : m ≠ "MACD") (h2 : m ≠ "MACD_signal") :
    (macdStep ta cv b d).hasCol m = d.hasCol m := by
  unfold DataFrame.hasCol
  rw [getCol_macdStep_ne _ _ _ _ h1 h2]

theorem chain_hasCol_sma (ta : TaLib) (cv : Series) (b1 : Bool) (p1 : Nat) (b2 : Bool)
    (p2 : Nat) (b3 b4 b5 : Bool) (d1 : DataFrame) :
    (indicatorChain ta cv b1 p1 b2 p2 b3 b4 b5 d1).hasCol ("SMA_" ++ toString p1) =
      ((b1 && decide (p1 < d1.len)) || d1.hasCol ("SMA_" ++ toString p1)) := by
  unfold indicatorChain
  rw [hasCol_macdStep_ne _ _ _ _ (sma_ne_macd p1) (sma_ne_macds p1),
      hasCol_rsiStep_ne _ _ _ _ (sma_ne_rsi p1),
      hasCol_bbStep_ne _ _ _ _ (sma_ne_bb_high p1) (sma_ne_bb_low p1),
      hasCol_emaStep_ne _ _ _ _ _ (sma_ne_ema p1 p2),
      hasCol_smaStep_self]

theorem chain_hasCol_ema (ta : TaLib) (cv : Series) (b1 : Bool) (p1 : Nat) (b2 : Bool)
    (p2 : Nat) (b3 b4 b5 : Bool) (d1 : DataFrame) :
    (indicatorChain ta cv b1 p1 b2 p2 b3 b4 b5 d1).hasCol ("EMA_" ++ toString p2) =
      ((b2 && decide (p2 < d1.len)) || d1.hasCol ("EMA_" ++ toString p2)) := by
  unfold indicatorChain
  rw [hasCol_macdStep_ne _ _ _ _ (ema_ne_macd p2) (ema_ne_macds p2),
      hasCol_rsiStep_ne _ _ _ _ (ema_ne_rsi p2),
      hasCol_bbStep_ne _ _ _ _ (ema_ne_bb_high p2) (ema_ne_bb_low p2),
      hasCol_emaStep_self, len_smaStep,
      hasCol_smaStep_ne _ _ _ _ _ (sma_ne_ema p1 p2).symm]

theorem chain_hasCol_bb_high (ta : TaLib) (cv : Series) (b1 : Bool) (p1 : Nat) (b2 : Bool)
    (p2 : Nat) (b3 b4 b5 : Bool) (d1 : DataFrame) :
    (indicatorChain ta cv b1 p1 b2 p2 b3 b4 b5 d1).hasCol "BB_high" =
      ((b3 && decide (20 < d1.len)) || d1.hasCol "BB_high") := by
  unfold indicatorChain
  rw [hasCol_macdStep_ne _ _ _ _ (by decide) (by decide),
      hasCol_rsiStep_ne _ _ _ _ (by decide),
      hasCol_bbStep_high, len_emaStep, len_smaStep,
      hasCol_emaStep_ne _ _ _ _ _ (ema_ne_bb_high p2).symm,
      hasCol_smaStep_ne _ _ _ _ _ (sma_ne_bb_high p1).symm]

theorem chain_hasCol_bb_low (ta : TaLib) (cv : Series) (b1 : Bool) (p1 : Nat) (b2 : Bool)
    (p2 : Nat) (b3 b4 b5 : Bool) (d1 : DataFrame) :
    (indicatorChain ta cv b1 p1 b2 p2 b3 b4 b5 d1).hasCol "BB_low" =
      ((b3 && decide (20 < d1.len)) || d1.hasCol "BB_low") := by
  unfold indicatorChain
  rw [hasCol_macdStep_ne _ _ _ _ (by decide) (by decide),
      hasCol_rsiStep_ne _ _ _ _ (by decide),
      hasCol_bbStep_low, len_emaStep, len_smaStep,
      hasCol_emaStep_ne _ _ _ _ _ (ema_ne_bb_low p2).symm,
      hasCol_smaStep_ne _ _ _ _ _ (sma_ne_bb_low p1).symm]

theorem chain_hasCol_rsi (ta : TaLib) (cv : Series) (b1 : Bool) (p1 : Nat) (b2 : Bool)
    (p2 : Nat) (b3 b4 b5 : Bool) (d1 : DataFrame) :
    (indicatorChain ta cv b1 p1 b2 p2 b3 b4 b5 d1).hasCol "RSI" =
      ((b4 && decide (14 < d1.len)) || d1.hasCol "RSI") := by
  unfold indicatorChain
  rw [hasCol_macdStep_ne _ _ _ _ (by decide) (by decide),
      hasCol_rsiStep_self, len_bbStep, len_emaStep, len_smaStep,
      hasCol_bbStep_ne _ _ _ _ (by decide) (by decide),
      hasCol_emaStep_ne _ _ _ _ _ (ema_ne_rsi p2).symm,
      hasCol_smaStep_ne _ _ _ _ _ (sma_ne_rsi p1).symm]

theorem chain_hasCol_macd (ta : TaLib) (cv : Series) (b1 : Bool) (p1 : Nat) (b2 : Bool)
    (p2 : Nat) (b3 b4 b5 : Bool) (d1 : DataFrame) :
    (indicatorChain ta cv b1 p1 b2 p2 b3 b4 b5 d1).hasCol "MACD" =
      ((b5 && decide (26 < d1.len)) || d1.hasCol "MACD") := by
  unfold indicatorChain
  rw [hasCol_macdStep_macd, len_rsiStep, len_bbStep, len_emaStep, len_smaStep,
      hasCol_rsiStep_ne _ _ _ _ (by decide),
      hasCol_bbStep_ne _ _ _ _ (by decide) (by decide),
      hasCol_emaStep_ne _ _ _ _ _ (ema_ne_macd p2).symm,
      hasCol_smaStep_ne _ _ _ _ _ (sma_ne_macd p1).symm]

theorem chain_hasCol_macds (ta : TaLib) (cv : Series) (b1 : Bool) (p1 : Nat) (b2 : Bool)
    (p2 : Nat) (b3 b4 b5 : Bool) (d1 : DataFrame) :
    (indicatorChain ta cv b1 p1 b2 p2 b3 b4 b5 d1).hasCol "MACD_signal" =
      ((b5 && decide (26 < d1.len)) || d1.hasCol "MACD_signal") := by
  unfold indicatorChain
  rw [hasCol_macdStep_signal, len_rsiStep, len_bbStep, len_emaStep, len_smaStep,
      hasCol_rsiStep_ne _ _ _ _ (by decide),
      hasCol_bbStep_ne _ _ _ _ (by decide) (by decide),
      hasCol_emaStep_ne _ _ _ _ _ (ema_ne_macds p2).symm,
      hasCol_smaStep_ne _ _ _ _ _ (sma_ne_macds p1).symm]

/-- The derived-column names (for fixed SMA/EMA window parameters). -/
def derivedNames (p1 p2 : Nat) : List String :=
  ["SMA_" ++ toString p1, "EMA_" ++ toString p2, "BB_high", "BB_low", "RSI", "MACD", "MACD_signal"]

/-! ### Acquisition and derivation facts -/

theorem empty_toDF (yf : YFrame) : (yf.toDF).empty = yf.empty := by
  cases yf with
  | flat idx cols => rfl
  | multi idx cols =>
    unfold YFrame.toDF YFrame.empty DataFrame.empty
    cases cols <;> rfl

theorem get_success {t : String} {r : FetchResult} {d : DataFrame} {msgs : List String}
    (h : get_stock_data t r = (some d, msgs)) :
    d.empty = false ∧ d.hasCol "Close" = true ∧ msgs = [] := by
  cases r with
  | error e => simp [get_stock_data] at h
  | ok od =>
    cases od with
    | none => simp [get_stock_data] at h
    | some yf =>
      by_cases he : yf.empty = true
      · simp [get_stock_data, he] at h
      · have he' : yf.empty = false := by revert he; cases yf.empty <;> simp
        by_cases hc : (yf.toDF).hasCol "Close" = true
        · simp [get_stock_data, he', hc] at h
          refine ⟨?_, ?_, h.2⟩
          · rw [← h.1, empty_toDF, he']
          · rw [← h.1, hc]
        · have hc' : (yf.toDF).hasCol "Close" = false := by
            revert hc; cases (yf.toDF).hasCol "Close" <;> simp
          simp [get_stock_data, he', hc'] at h

theorem hasCol_smaStep_mono (ta : TaLib) (cv : Series) (b : Bool) (p : Nat) {d : DataFrame}
    {m : String} (h : d.hasCol m = true) : (smaStep ta cv b p d).hasCol m = true := by
  unfold smaStep; split
  · exact DataFrame.hasCol_setCol_mono _ _ h
  · exact h

theorem hasCol_emaStep_mono (ta : TaLib) (cv : Series) (b : Bool) (p : Nat) {d : DataFrame}
    {m : String} (h : d.hasCol m = true) : (emaStep ta cv b p d).hasCol m = true := by
  unfold emaStep; split
  · exact DataFrame.hasCol_setCol_mono _ _ h
  · exact h

theorem hasCol_bbStep_mono (ta : TaLib) (cv : Series) (b : Bool) {d : DataFrame}
    {m : String} (h : d.hasCol m = true) : (bbStep ta cv b d).hasCol m = true := by
  unfold bbStep; split
  · exact DataFrame.hasCol_setCol_mono _ _ (DataFrame.hasCol_setCol_mono _ _ h)
  · exact h

theorem hasCol_rsiStep_mono (ta : TaLib) (cv : Series) (b : Bool) {d : DataFrame}
    {m : String} (h : d.hasCol m = true) : (rsiStep ta cv b d).hasCol m = true := by
  unfold rsiStep; split
  · exact DataFrame.hasCol_setCol_mono _ _ h
  · exact h

theorem hasCol_macdStep_mono (ta : TaLib) (cv : Series) (b : Bool) {d : DataFrame}
    {m : String} (h : d.hasCol m = true) : (macdStep ta cv b d).hasCol m = true := by
  unfold macdStep; split
  · exact DataFrame.hasCol_setCol_mono _ _ (DataFrame.hasCol_setCol_mono _ _ h)
  · exact h

theorem chain_hasCol_mono (ta : TaLib) (cv : Series) (b1 : Bool) (p1 : Nat) (b2 : Bool)
    (p2 : Nat) (b3 b4 b5 : Bool) {d : DataFrame} {m : String} (h : d.hasCol m = true) :
    (indicatorChain ta cv b1 p1 b2 p2 b3 b4 b5 d).hasCol m = true := by
  unfold indicatorChain
  exact hasCol_macdStep_mono ta cv b5 (hasCol_rsiStep_mono ta cv b4 (hasCol_bbStep_mono ta cv b3
    (hasCol_emaStep_mono ta cv b2 p2 (hasCol_smaStep_mono ta cv b1 p1 h))))

theorem calc_ok_none_iff (ta : TaLib) (b1 : Bool) (p1 : Nat) (b2 : Bool) (p2 : Nat)
    (b3 b4 b5 : Bool) (od : Option DataFrame) :
    calculate_indicators ta od b1 p1 b2 p2 b3 b4 b5 = .ok none ↔
      od = none ∨ ∃ d, od = some d ∧ d.empty = true := by
  cases od with
  | none => simp [calculate_indicators]
  | some d =>
    by_cases he : d.empty = true
    · simp [calculate_indicators, he]
    · have he' : d.empty = false := by revert he; cases d.empty <;> simp
      cases hdrop : dropnaClose d with
      | error e => simp [calculate_indicators, he', hdrop]
      | ok d1 =>
        obtain ⟨cv, hcv⟩ := dropna_close_some hdrop
        rw [calc_reduce ta b1 p1 b2 p2 b3 b4 b5 he' hdrop hcv]
        simp [he']

theorem calc_success (ta : TaLib) (b1 : Bool) (p1 : Nat) (b2 : Bool) (p2 : Nat)
    (b3 b4 b5 : Bool) {d : DataFrame} (hne : d.empty = false) (hC : d.hasCol "Close" = true) :
    ∃ out, calculate_indicators ta (some d) b1 p1 b2 p2 b3 b4 b5 = .ok (some out) ∧
      ∀ m, d.hasCol m = true → out.hasCol m = true := by
  obtain ⟨cs, hcs⟩ := hasCol_getCol hC
  have hdrop : dropnaClose d = .ok
      ⟨maskFilter (cs.map Option.isSome) d.idx,
       d.cols.map fun c => (c.1, maskFilter (cs.map Option.isSome) c.2)⟩ := by
    unfold dropnaClose
    rw [hcs]
  obtain ⟨cv, hcv⟩ := dropna_close_some hdrop
  refine ⟨_, calc_reduce ta b1 p1 b2 p2 b3 b4 b5 hne hdrop hcv, fun m hm => ?_⟩
  exact chain_hasCol_mono ta cv b1 p1 b2 p2 b3 b4 b5
    (by rw [hasCol_of_dropnaClose hdrop]; exact hm)

/-! ### The claims -/

/-- Claim C1: after first discarding rows whose closing price is absent
(`dropnaClose`, whose successful result `d1` carries the remaining row
count), each indicator's derived columns are present in the output of
`calculate_indicators` if and only if that indicator is enabled and the
remaining row count strictly exceeds its required window — SMA and EMA the
user-supplied window, Bollinger Bands 20 (adding `BB_high` and `BB_low`),
RSI 14, MACD 26 (adding `MACD` and `MACD_signal`) — and an insufficient row
count is a silent skip: the call still returns a frame, never an error.  The
input frame is assumed not to already carry any derived column name. -/
theorem claim_C1 (ta : TaLib) (b1 : Bool) (p1 : Nat) (b2 : Bool) (p2 : Nat) (b3 b4 b5 : Bool)
    {d d1 : DataFrame} (hne : d.empty = false) (hdrop : dropnaClose d = .ok d1)
    (hfresh : ∀ nm ∈ derivedNames p1 p2, d.hasCol nm = false) :
    ∃ out, calculate_indicators ta (some d) b1 p1 b2 p2 b3 b4 b5 = .ok (some out) ∧
      (out.hasCol ("SMA_" ++ toString p1) = true ↔ b1 = true ∧ p1 < d1.len) ∧
      (out.hasCol ("EMA_" ++ toString p2) = true ↔ b2 = true ∧ p2 < d1.len) ∧
      (out.hasCol "BB_high" = true ↔ b3 = true ∧ 20 < d1.len) ∧
      (out.hasCol "BB_low" = true ↔ b3 = true ∧ 20 < d1.len) ∧
      (out.hasCol "RSI" = true ↔ b4 = true ∧ 14 < d1.len) ∧
      (out.hasCol "MACD" = true ↔ b5 = true ∧ 26 < d1.len) ∧
      (out.hasCol "MACD_signal" = true ↔ b5 = true ∧ 26 < d1.len) := by
  obtain ⟨cv, hcv⟩ := dropna_close_some hdrop
  have hf : ∀ nm ∈ derivedNames p1 p2, d1.hasCol nm = false := fun nm hmem => by
    rw [hasCol_of_dropnaClose hdrop]; exact hfresh nm hmem
  have hf1 := hf ("SMA_" ++ toString p1) (by simp [derivedNames])
  have hf2 := hf ("EMA_" ++ toString p2) (by simp [derivedNames])
  have hf3 := hf "BB_high" (by simp [derivedNames])
  have hf4 := hf "BB_low" (by simp [derivedNames])
  have hf5 := hf "RSI" (by simp [derivedNames])
  have hf6 := hf "MACD" (by simp [derivedNames])
  have hf7 := hf "MACD_signal" (by simp [derivedNames])
  refine ⟨_, calc_reduce ta b1 p1 b2 p2 b3 b4 b5 hne hdrop hcv, ?_, ?_, ?_, ?_, ?_, ?_, ?_⟩
  · rw [chain_hasCol_sma, hf1]
    simp [Bool.and_eq_true]
  · rw [chain_hasCol_ema, hf2]
    simp [Bool.and_eq_true]
  · rw [chain_hasCol_bb_high, hf3]
    simp [Bool.and_eq_true]
  · rw [chain_hasCol_bb_low, hf4]
    simp [Bool.and_eq_true]
  · rw [chain_hasCol_rsi, hf5]
    simp [Bool.and_eq_true]
  · rw [chain_hasCol_macd, hf6]
    simp [Bool.and_eq_true]
  · rw [chain_hasCol_macds, hf7]
    simp [Bool.and_eq_true]

/-- A trivial instantiation of the indicator-formula library, for concrete
witnesses (the claims under verification do not constrain the numeric
formulas themselves). -/
def taId : TaLib :=
  ⟨fun c _ => c, fun c _ => c, fun c _ _ => c, fun c _ _ => c, fun c _ => c,
   fun c => c, fun c => c⟩

/-- A concrete two-row frame with a complete closing-price column. -/
def dfW : DataFrame := ⟨[0, 1], [("Close", [some 1, some 2])]⟩

/-- Witness for C1 at a concrete input: two rows, SMA enabled with window 1
(so `1 < 2` and `SMA_1` appears), everything else disabled. -/
theorem claim_C1_witness :
    ∃ out, calculate_indicators taId (some dfW) true 1 false 1 false false false =
        .ok (some out) ∧
      (out.hasCol ("SMA_" ++ toString 1) = true ↔ true = true ∧ 1 < dfW.len) ∧
      (out.hasCol ("EMA_" ++ toString 1) = true ↔ false = true ∧ 1 < dfW.len) ∧
      (out.hasCol "BB_high" = true ↔ false = true ∧ 20 < dfW.len) ∧
      (out.hasCol "BB_low" = true ↔ false = true ∧ 20 < dfW.len) ∧
      (out.hasCol "RSI" = true ↔ false = true ∧ 14 < dfW.len) ∧
      (out.hasCol "MACD" = true ↔ false = true ∧ 26 < dfW.len) ∧
      (out.hasCol "MACD_signal" = true ↔ false = true ∧ 26 < dfW.len) :=
  @claim_C1 taId true 1 false 1 false false false dfW dfW rfl rfl (by decide)

theorem strHas_squeeze (x t : String) (pre post : List Char)
    (hx : x.data = pre ++ (t.data ++ post)) : strHas x t = true := by
  unfold strHas
  rw [hx]
  exact seqIn_append_left pre (seqIn_self_append t.data post)

/-- A provider result carrying one row but no closing-price column. -/
def yfNoClose : YFrame := .flat [0] [("Open", [some 1])]

/-- Counterexample to C2 as stated: when the required closing-price column is
absent after flattening, `get_stock_data` fails with a message that does not
name the ticker — here ticker `AAPL`, with a non-empty provider result whose
only column is `Open`. -/
theorem claim_C2_counterexample :
    (get_stock_data "AAPL" (.ok (some yfNoClose))).1 = none ∧
    ((get_stock_data "AAPL" (.ok (some yfNoClose))).2.all
      fun m => !(strHas m "AAPL")) = true := by
  constructor
  · rfl
  · rfl

/-- Claim C2 (amended): of `get_stock_data`'s three failure kinds, the
no-data failure and the exception failure emit a message naming the ticker,
and the exception message also contains the underlying error text; the
missing-closing-price failure instead emits a fixed message (which does not
mention the ticker, per the counterexample). -/
theorem claim_C2 (t : String) (r : FetchResult) :
    (∀ e, r = .error e →
      get_stock_data t r = (none, [" Error fetching data for " ++ t ++ ": " ++ e]) ∧
      strHas (" Error fetching data for " ++ t ++ ": " ++ e) t = true ∧
      strHas (" Error fetching data for " ++ t ++ ": " ++ e) e = true) ∧
    (r = .ok none →
      get_stock_data t r =
        (none, ["⚠ No data available for " ++ t ++ ". Please check the symbol and try again."]) ∧
      strHas ("⚠ No data available for " ++ t ++ ". Please check the symbol and try again.") t
        = true) ∧
    (∀ yf, r = .ok (some yf) → yf.empty = true →
      get_stock_data t r =
        (none, ["⚠ No data available for " ++ t ++ ". Please check the symbol and try again."]) ∧
      strHas ("⚠ No data available for " ++ t ++ ". Please check the symbol and try again.") t
        = true) ∧
    (∀ yf, r = .ok (some yf) → yf.empty = false → (yf.toDF).hasCol "Close" = false →
      get_stock_data t r =
        (none, ["\x27Close\x27 column is missing. Unable to compute indicators."])) := by
  refine ⟨?_, ?_, ?_, ?_⟩
  · rintro e rfl
    refine ⟨rfl, ?_, ?_⟩
    · refine strHas_squeeze _ _ (" Error fetching data for ").data ((": ").data ++ e.data) ?_
      rw [sdata_append, sdata_append, sdata_append]
      simp [List.append_assoc]
    · refine strHas_squeeze _ _
        ((" Error fetching data for ").data ++ t.data ++ (": ").data) [] ?_
      rw [sdata_append, sdata_append, sdata_append]
      simp [List.append_assoc]
  · rintro rfl
    refine ⟨rfl, ?_⟩
    refine strHas_squeeze _ _ ("⚠ No data available for ").data
      (". Please check the symbol and try again.").data ?_
    rw [sdata_append, sdata_append]
    simp [List.append_assoc]
  · rintro yf rfl he
    refine ⟨?_, ?_⟩
    · simp [get_stock_data, he]
    · refine strHas_squeeze _ _ ("⚠ No data available for ").data
        (". Please check the symbol and try again.").data ?_
      rw [sdata_append, sdata_append]
      simp [List.append_assoc]
  · rintro yf rfl he hc
    simp [get_stock_data, he, hc]

/-- Witness for C2 (amended) at the exception case: ticker `AAPL`, underlying
error text `boom`. -/
theorem claim_C2_witness :
    get_stock_data "AAPL" (.error "boom") =
      (none, [" Error fetching data for " ++ "AAPL" ++ ": " ++ "boom"]) ∧
    strHas (" Error fetching data for " ++ "AAPL" ++ ": " ++ "boom") "AAPL" = true ∧
    strHas (" Error fetching data for " ++ "AAPL" ++ ": " ++ "boom") "boom" = true :=
  (claim_C2 "AAPL" (.error "boom")).1 "boom" rfl

/-- Claim C3: `get_stock_data` fails (returns `None`) exactly when the
provider's result is absent or empty, or no `Close` column exists after
flattening the hierarchical column index to first levels, or the fetch
raised; on success the frame is non-empty and has a `Close` column (and no
message is emitted).  The model is total, mirroring the catch-all
`try/except`: no exception escapes the call. -/
theorem claim_C3 (t : String) (r : FetchResult) :
    ((get_stock_data t r).1 = none ↔
      (∃ e, r = .error e) ∨ r = .ok none ∨
      ∃ yf, r = .ok (some yf) ∧ (yf.empty = true ∨ (yf.toDF).hasCol "Close" = false)) ∧
    (∀ d msgs, get_stock_data t r = (some d, msgs) →
      d.empty = false ∧ d.hasCol "Close" = true ∧ msgs = []) := by
  constructor
  · cases r with
    | error e => simp [get_stock_data]
    | ok od =>
      cases od with
      | none => simp [get_stock_data]
      | some yf =>
        by_cases he : yf.empty = true
        · simp only [get_stock_data, he, if_true]
          simp only [true_iff]
          exact Or.inr (Or.inr ⟨yf, rfl, Or.inl he⟩)
        · have he' : yf.empty = false := by revert he; cases yf.empty <;> simp
          by_cases hc : (yf.toDF).hasCol "Close" = true
          · simp [get_stock_data, he', hc]
            refine ⟨fun h => Option.noConfusion (Except.ok.inj h), fun x hx => ?_⟩
            obtain rfl : yf = x := Option.some.inj (Except.ok.inj hx)
            exact ⟨he', hc⟩
          · have hc' : (yf.toDF).hasCol "Close" = false := by
              revert hc; cases (yf.toDF).hasCol "Close" <;> simp
            simp only [get_stock_data, he', hc']
            simp only [Bool.false_eq_true, if_false, true_iff]
            exact Or.inr (Or.inr ⟨yf, rfl, Or.inr hc'⟩)
  · intro d msgs h
    exact get_success h

/-- Witness for C3 at a concrete successful fetch. -/
theorem claim_C3_witness :
    dfW.empty = false ∧ dfW.hasCol "Close" = true ∧ ([] : List String) = [] :=
  (claim_C3 "AAPL" (.ok (some (.flat [0, 1] [("Close", [some 1, some 2])])))).2 dfW [] rfl

/-- Claim C4: `calculate_indicators` returns `None` exactly when its input is
`None` or empty (and then immediately, without raising); on any other input
of the acquisition stage's shape (non-empty, with a `Close` column) it
returns a frame — the input (post-dropna) still containing all its columns,
possibly augmented — never `None` and never an error. -/
theorem claim_C4 (ta : TaLib) (b1 : Bool) (p1 : Nat) (b2 : Bool) (p2 : Nat) (b3 b4 b5 : Bool)
    (od : Option DataFrame) :
    (calculate_indicators ta od b1 p1 b2 p2 b3 b4 b5 = .ok none ↔
      od = none ∨ ∃ d, od = some d ∧ d.empty = true) ∧
    (∀ d, od = some d → d.empty = false → d.hasCol "Close" = true →
      ∃ out, calculate_indicators ta od b1 p1 b2 p2 b3 b4 b5 = .ok (some out) ∧
        ∀ m, d.hasCol m = true → out.hasCol m = true) := by
  constructor
  · exact calc_ok_none_iff ta b1 p1 b2 p2 b3 b4 b5 od
  · rintro d rfl hne hC
    exact calc_success ta b1 p1 b2 p2 b3 b4 b5 hne hC

/-- Witness for C4 at a concrete non-empty frame with a `Close` column. -/
theorem claim_C4_witness :
    ∃ out, calculate_indicators taId (some dfW) true 1 false 1 false false false =
        .ok (some out) ∧ ∀ m, dfW.hasCol m = true → out.hasCol m = true :=
  (claim_C4 taId true 1 false 1 false false false (some dfW)).2 dfW rfl rfl rfl

/-- Claim C5: the " No valid data for plotting." branch of `main` is
unreachable — `main_pipeline` never yields `noValidData` — because whenever
`get_stock_data` returns a frame, that frame is non-empty, so
`calculate_indicators` on it never returns `None`. -/
theorem claim_C5 (ta : TaLib) (sel t : String) (r : FetchResult)
    (b1 : Bool) (p1 : Nat) (b2 : Bool) (p2 : Nat) (b3 b4 b5 : Bool) :
    main_pipeline ta sel r b1 p1 b2 p2 b3 b4 b5 ≠ .noValidData ∧
    (∀ d msgs, get_stock_data t r = (some d, msgs) → d.empty = false ∧
      calculate_indicators ta (some d) b1 p1 b2 p2 b3 b4 b5 ≠ .ok none) := by
  have key : ∀ (d : DataFrame) (msgs : List String) (tk : String),
      get_stock_data tk r = (some d, msgs) →
      d.empty = false ∧ calculate_indicators ta (some d) b1 p1 b2 p2 b3 b4 b5 ≠ .ok none := by
    intro d msgs tk hg
    obtain ⟨hde, -, -⟩ := get_success hg
    refine ⟨hde, fun hnone => ?_⟩
    rcases (calc_ok_none_iff ta b1 p1 b2 p2 b3 b4 b5 (some d)).mp hnone with h | ⟨d', hd', he'⟩
    · cases h
    · rw [Option.some_inj.mp hd'] at hde
      rw [hde] at he'
      cases he'
  constructor
  · unfold main_pipeline
    rcases hmt : mainTicker sel with - | tk
    · simp
    · rcases hg : get_stock_data tk r with ⟨fst, snd⟩
      cases fst with
      | none => simp [hg]
      | some d =>
        obtain ⟨-, hnn⟩ := key d snd tk hg
        rcases hcalc : calculate_indicators ta (some d) b1 p1 b2 p2 b3 b4 b5 with e | o
        · simp [hg, hcalc]
        · cases o with
          | none => exact absurd hcalc hnn
          | some d2 =>
            rcases hplot : plot_stock_data d2 tk b1 p1 b2 p2 b3 b4 b5 with e | items <;>
              simp [hg, hcalc, hplot]
  · intro d msgs hg
    exact key d msgs t hg

/-- A concrete successful fetch result whose flattened frame is `dfW`. -/
def rW : FetchResult := .ok (some (.flat [0, 1] [("Close", [some 1, some 2])]))

/-- Witness for C5 at a concrete interaction. -/
theorem claim_C5_witness :
    main_pipeline taId "Apple (AAPL)" rW false 1 false 1 false false false ≠ .noValidData ∧
    (dfW.empty = false ∧
      calculate_indicators taId (some dfW) false 1 false 1 false false false ≠ .ok none) :=
  ⟨(claim_C5 taId "Apple (AAPL)" "AAPL" rW false 1 false 1 false false false).1,
   (claim_C5 taId "Apple (AAPL)" "AAPL" rW false 1 false 1 false false false).2 dfW [] rfl⟩

/-- Claim C6: for every rendered series (one whose column reads succeed —
`Close` present, and each band/signal co-column present when its guard
fires), the primary chart's first trace is the closing price, and its full
trace list is exactly close, then SMA, EMA, Bollinger high and low, in that
order, including precisely those whose toggle is enabled and whose column is
present; with all overlay toggles off it has exactly one trace, and with
only SMA enabled and present exactly two. -/
theorem claim_C6 (data : DataFrame) (ticker : String) (b1 : Bool) (p1 : Nat) (b2 : Bool)
    (p2 : Nat) (b3 b4 b5 : Bool) (cs : Series)
    (hC : data.getCol "Close" = some cs)
    (hbb : data.hasCol "BB_high" = true → data.hasCol "BB_low" = true)
    (hm : data.hasCol "MACD" = true → data.hasCol "MACD_signal" = true) :
    ∃ c rest,
      plot_stock_data data ticker b1 p1 b2 p2 b3 b4 b5 = .ok (RenderItem.chart c :: rest) ∧
      c.traces.head? = some ⟨"Close Price", "blue", data.idx, cs⟩ ∧
      c.traces = ⟨"Close Price", "blue", data.idx, cs⟩ ::
        ((if b1 && data.hasCol ("SMA_" ++ toString p1) then
            [⟨"SMA " ++ toString p1, "orange", data.idx,
              (data.getCol ("SMA_" ++ toString p1)).getD []⟩] else []) ++
         (if b2 && data.hasCol ("EMA_" ++ toString p2) then
            [⟨"EMA " ++ toString p2, "green", data.idx,
              (data.getCol ("EMA_" ++ toString p2)).getD []⟩] else []) ++
         (if b3 && data.hasCol "BB_high" then
            [⟨"Bollinger High", "red", data.idx, (data.getCol "BB_high").getD []⟩,
             ⟨"Bollinger Low", "purple", data.idx, (data.getCol "BB_low").getD []⟩] else [])) ∧
      ((b1 = false ∧ b2 = false ∧ b3 = false) → c.traces.length = 1) ∧
      ((b1 = true ∧ data.hasCol ("SMA_" ++ toString p1) = true ∧ b2 = false ∧ b3 = false) →
        c.traces.length = 2) := by
  refine ⟨_, _, plot_spec data ticker b1 p1 b2 p2 b3 b4 b5 cs hC hbb hm, rfl, rfl, ?_, ?_⟩
  · rintro ⟨rfl, rfl, rfl⟩
    simp
  · rintro ⟨rfl, hs, rfl, rfl⟩
    simp [hs]

/-- Witness for C6 at a concrete rendered series: two rows, all toggles
off — the primary chart has exactly the close trace. -/
theorem claim_C6_witness :
    ∃ c rest,
      plot_stock_data dfW "AAPL" false 1 false 1 false false false =
        .ok (RenderItem.chart c :: rest) ∧
      c.traces.head? = some ⟨"Close Price", "blue", dfW.idx, [some 1, some 2]⟩ ∧
      c.traces = ⟨"Close Price", "blue", dfW.idx, [some 1, some 2]⟩ ::
        ((if false && dfW.hasCol ("SMA_" ++ toString 1) then
            [⟨"SMA " ++ toString 1, "orange", dfW.idx,
              (dfW.getCol ("SMA_" ++ toString 1)).getD []⟩] else []) ++
         (if false && dfW.hasCol ("EMA_" ++ toString 1) then
            [⟨"EMA " ++ toString 1, "green", dfW.idx,
              (dfW.getCol ("EMA_" ++ toString 1)).getD []⟩] else []) ++
         (if false && dfW.hasCol "BB_high" then
            [⟨"Bollinger High", "red", dfW.idx, (dfW.getCol "BB_high").getD []⟩,
             ⟨"Bollinger Low", "purple", dfW.idx, (dfW.getCol "BB_low").getD []⟩] else [])) ∧
      ((false = false ∧ false = false ∧ false = false) → c.traces.length = 1) ∧
      ((false = true ∧ dfW.hasCol ("SMA_" ++ toString 1) = true ∧ false = false ∧
          false = false) → c.traces.length = 2) :=
  claim_C6 dfW "AAPL" false 1 false 1 false false false [some 1, some 2] rfl
    (by decide) (by decide)

/-- Claim C7: under the same rendered-series conditions, the output is the
primary chart, then the RSI section exactly when the RSI toggle is on and
the `RSI` column is present — a subheader plus a chart holding the RSI line
and the two fixed dotted reference lines at 70 and 30 — then the MACD
section; the RSI subheader appears in the output iff that guard holds, and
when RSI is enabled but its column was skipped nothing RSI-related is drawn
while the call still succeeds. -/
theorem claim_C7 (data : DataFrame) (ticker : String) (b1 : Bool) (p1 : Nat) (b2 : Bool)
    (p2 : Nat) (b3 b4 b5 : Bool) (cs : Series)
    (hC : data.getCol "Close" = some cs)
    (hbb : data.hasCol "BB_high" = true → data.hasCol "BB_low" = true)
    (hm : data.hasCol "MACD" = true → data.hasCol "MACD_signal" = true) :
    ∃ fig,
      plot_stock_data data ticker b1 p1 b2 p2 b3 b4 b5 = .ok
        ([RenderItem.chart fig] ++
         (if b4 && data.hasCol "RSI" then
            [.subheader "Relative Strength Index (RSI)",
             .chart ⟨[⟨"RSI", "yellow", data.idx, (data.getCol "RSI").getD []⟩],
               [((70 : ℚ), "dot", "red"), ((30 : ℚ), "dot", "green")],
               none, none, none, none⟩]
          else []) ++
         (if b5 && data.hasCol "MACD" then
            [.subheader "MACD Indicator",
             .chart ⟨[⟨"MACD", "cyan", data.idx, (data.getCol "MACD").getD []⟩,
               ⟨"Signal Line", "magenta", data.idx, (data.getCol "MACD_signal").getD []⟩],
               [], none, none, none, none⟩]
          else [])) ∧
      ((RenderItem.subheader "Relative Strength Index (RSI)") ∈
          ([RenderItem.chart fig] ++
           (if b4 && data.hasCol "RSI" then
              [.subheader "Relative Strength Index (RSI)",
               .chart ⟨[⟨"RSI", "yellow", data.idx, (data.getCol "RSI").getD []⟩],
                 [((70 : ℚ), "dot", "red"), ((30 : ℚ), "dot", "green")],
                 none, none, none, none⟩]
            else []) ++
           (if b5 && data.hasCol "MACD" then
              [.subheader "MACD Indicator",
               .chart ⟨[⟨"MACD", "cyan", data.idx, (data.getCol "MACD").getD []⟩,
                 ⟨"Signal Line", "magenta", data.idx, (data.getCol "MACD_signal").getD []⟩],
                 [], none, none, none, none⟩]
            else [])) ↔
        (b4 && data.hasCol "RSI") = true) := by
  refine ⟨_, plot_spec data ticker b1 p1 b2 p2 b3 b4 b5 cs hC hbb hm, ?_⟩
  by_cases hg : (b4 && data.hasCol "RSI") = true
  · simp [hg]
  · have hg' : (b4 && data.hasCol "RSI") = false := by
      revert hg; cases (b4 && data.hasCol "RSI") <;> simp
    rw [hg']
    simp only [Bool.false_eq_true, if_false, List.append_nil, iff_false]
    intro hmem
    rcases List.mem_append.mp hmem with h1 | h2
    · simp at h1
    · by_cases hg5 : (b5 && data.hasCol "MACD") = true
      · rw [hg5] at h2
        simp at h2
      · have : (b5 && data.hasCol "MACD") = false := by
          revert hg5; cases (b5 && data.hasCol "MACD") <;> simp
        rw [this] at h2
        simp at h2

/-- Witness for C7 at a concrete series with RSI toggled off. -/
theorem claim_C7_witness :
    ∃ fig,
      plot_stock_data dfW "AAPL" false 1 false 1 false false false = .ok
        ([RenderItem.chart fig] ++
         (if false && dfW.hasCol "RSI" then
            [.subheader "Relative Strength Index (RSI)",
             .chart ⟨[⟨"RSI", "yellow", dfW.idx, (dfW.getCol "RSI").getD []⟩],
               [((70 : ℚ), "dot", "red"), ((30 : ℚ), "dot", "green")],
               none, none, none, none⟩]
          else []) ++
         (if false && dfW.hasCol "MACD" then
            [.subheader "MACD Indicator",
             .chart ⟨[⟨"MACD", "cyan", dfW.idx, (dfW.getCol "MACD").getD []⟩,
               ⟨"Signal Line", "magenta", dfW.idx, (dfW.getCol "MACD_signal").getD []⟩],
               [], none, none, none, none⟩]
          else [])) ∧
      ((RenderItem.subheader "Relative Strength Index (RSI)") ∈
          ([RenderItem.chart fig] ++
           (if false && dfW.hasCol "RSI" then
              [.subheader "Relative Strength Index (RSI)",
               .chart ⟨[⟨"RSI", "yellow", dfW.idx, (dfW.getCol "RSI").getD []⟩],
                 [((70 : ℚ), "dot", "red"), ((30 : ℚ), "dot", "green")],
                 none, none, none, none⟩]
            else []) ++
           (if false && dfW.hasCol "MACD" then
              [.subheader "MACD Indicator",
               .chart ⟨[⟨"MACD", "cyan", dfW.idx, (dfW.getCol "MACD").getD []⟩,
                 ⟨"Signal Line", "magenta", dfW.idx, (dfW.getCol "MACD_signal").getD []⟩],
                 [], none, none, none, none⟩]
            else [])) ↔
        (false && dfW.hasCol "RSI") = true) :=
  claim_C7 dfW "AAPL" false 1 false 1 false false false [some 1, some 2] rfl
    (by decide) (by decide)

/-- Claim C8: the derive and render stages are deterministic — two runs with
the same options, the same ticker and identical series (and, for the whole
pipeline, identical provider results) produce identical augmented series,
identical chart specifications and identical outcomes.  The embedding is
pure exactly because the source stages consult nothing beyond their
arguments (the `ta` formula bundle is the same fixed library in both runs). -/
theorem claim_C8 (ta : TaLib) (sel ticker : String) (b1 : Bool) (p1 : Nat) (b2 : Bool)
    (p2 : Nat) (b3 b4 b5 : Bool) (od₁ od₂ : Option DataFrame) (e₁ e₂ : DataFrame)
    (r₁ r₂ : FetchResult) (hod : od₁ = od₂) (he : e₁ = e₂) (hr : r₁ = r₂) :
    calculate_indicators ta od₁ b1 p1 b2 p2 b3 b4 b5 =
      calculate_indicators ta od₂ b1 p1 b2 p2 b3 b4 b5 ∧
    plot_stock_data e₁ ticker b1 p1 b2 p2 b3 b4 b5 =
      plot_stock_data e₂ ticker b1 p1 b2 p2 b3 b4 b5 ∧
    main_pipeline ta sel r₁ b1 p1 b2 p2 b3 b4 b5 =
      main_pipeline ta sel r₂ b1 p1 b2 p2 b3 b4 b5 := by
  subst hod
  subst he
  subst hr
  exact ⟨rfl, rfl, rfl⟩

/-- Witness for C8 at concrete identical runs. -/
theorem claim_C8_witness :
    calculate_indicators taId (some dfW) true 1 false 1 false false false =
      calculate_indicators taId (some dfW) true 1 false 1 false false false ∧
    plot_stock_data dfW "AAPL" true 1 false 1 false false false =
      plot_stock_data dfW "AAPL" true 1 false 1 false false false ∧
    main_pipeline taId "Apple (AAPL)" rW true 1 false 1 false false false =
      main_pipeline taId "Apple (AAPL)" rW true 1 false 1 false false false :=
  claim_C8 taId "Apple (AAPL)" "AAPL" true 1 false 1 false false false
    (some dfW) (some dfW) dfW dfW rW rW rfl rfl rfl

theorem smaStep_id_of_len_zero (ta : TaLib) (cv : Series) (b : Bool) (p : Nat)
    {d : DataFrame} (h : d.len = 0) : smaStep ta cv b p d = d := by
  unfold smaStep
  simp [h]

theorem emaStep_id_of_len_zero (ta : TaLib) (cv : Series) (b : Bool) (p : Nat)
    {d : DataFrame} (h : d.len = 0) : emaStep ta cv b p d = d := by
  unfold emaStep
  simp [h]

theorem bbStep_id_of_len_zero (ta : TaLib) (cv : Series) (b : Bool)
    {d : DataFrame} (h : d.len = 0) : bbStep ta cv b d = d := by
  unfold bbStep
  simp [h]

theorem rsiStep_id_of_len_zero (ta : TaLib) (cv : Series) (b : Bool)
    {d : DataFrame} (h : d.len = 0) : rsiStep ta cv b d = d := by
  unfold rsiStep
  simp [h]

theorem macdStep_id_of_len_zero (ta : TaLib) (cv : Series) (b : Bool)
    {d : DataFrame} (h : d.len = 0) : macdStep ta cv b d = d := by
  unfold macdStep
  simp [h]

theorem chain_id_of_len_zero (ta : TaLib) (cv : Series) (b1 : Bool) (p1 : Nat) (b2 : Bool)
    (p2 : Nat) (b3 b4 b5 : Bool) {d : DataFrame} (h : d.len = 0) :
    indicatorChain ta cv b1 p1 b2 p2 b3 b4 b5 d = d := by
  unfold indicatorChain
  rw [smaStep_id_of_len_zero ta cv b1 p1 h, emaStep_id_of_len_zero ta cv b2 p2 h,
      bbStep_id_of_len_zero ta cv b3 h, rsiStep_id_of_len_zero ta cv b4 h,
      macdStep_id_of_len_zero ta cv b5 h]

/-- Claim C9: when the fetched frame is non-empty but every closing price is
NaN, `calculate_indicators` returns an empty (zero-row) frame rather than
`None`; `main` therefore does not show " No valid data for plotting." but
invokes `plot_stock_data` on the zero-row frame, rendering a primary chart
whose single close-price trace is empty.  The input frame is assumed not to
pre-contain derived column names. -/
theorem claim_C9 (ta : TaLib) (sel t : String) (r : FetchResult) (b1 : Bool) (p1 : Nat)
    (b2 : Bool) (p2 : Nat) (b3 b4 b5 : Bool) {d : DataFrame} {cv : Series}
    (hsel : mainTicker sel = some t)
    (hget : get_stock_data t r = (some d, []))
    (hC : d.getCol "Close" = some cv)
    (hnan : ∀ v ∈ cv, v = none)
    (hfresh : ∀ nm ∈ derivedNames p1 p2, d.hasCol nm = false) :
    ∃ d1, calculate_indicators ta (some d) b1 p1 b2 p2 b3 b4 b5 = .ok (some d1) ∧
      d1.len = 0 ∧ d1.empty = true ∧
      main_pipeline ta sel r b1 p1 b2 p2 b3 b4 b5 = .plotted
        [RenderItem.chart ⟨[⟨"Close Price", "blue", [], []⟩], [],
          some (t ++ " Stock Price"), some "Date", some "Price", some "plotly_dark"⟩] := by
  obtain ⟨hne, -, -⟩ := get_success hget
  have hmaskf : ∀ b ∈ cv.map Option.isSome, b = false := by
    intro b hb
    obtain ⟨v, hv, rfl⟩ := List.mem_map.mp hb
    rw [hnan v hv]
    rfl
  have hdrop : dropnaClose d = .ok
      ⟨maskFilter (cv.map Option.isSome) d.idx,
       d.cols.map fun c => (c.1, maskFilter (cv.map Option.isSome) c.2)⟩ := by
    unfold dropnaClose
    rw [hC]
  obtain ⟨cv1, hcv1⟩ := dropna_close_some hdrop
  set d1 : DataFrame :=
    ⟨maskFilter (cv.map Option.isSome) d.idx,
     d.cols.map fun c => (c.1, maskFilter (cv.map Option.isSome) c.2)⟩ with hd1
  have hidx : d1.idx = [] := maskFilter_all_false _ _ hmaskf
  have hlen : d1.len = 0 := by rw [DataFrame.len, hidx]; rfl
  have hcalc : calculate_indicators ta (some d) b1 p1 b2 p2 b3 b4 b5 = .ok (some d1) := by
    rw [calc_reduce ta b1 p1 b2 p2 b3 b4 b5 hne hdrop hcv1,
        chain_id_of_len_zero ta cv1 b1 p1 b2 p2 b3 b4 b5 hlen]
  have hcv1' : cv1 = [] := by
    obtain ⟨cv0, hc0, -, hcols⟩ := dropnaClose_ok hdrop
    have h2 : cv0 = cv := by
      rw [hC] at hc0
      exact (Option.some.inj hc0).symm
    subst h2
    have hthis := hcv1
    rw [hcols "Close", hC] at hthis
    have h3 : cv1 = maskFilter (cv0.map Option.isSome) cv0 :=
      (Option.some.inj hthis).symm
    rw [h3]
    exact maskFilter_all_false _ _ hmaskf
  have hfresh1 : ∀ nm ∈ derivedNames p1 p2, d1.hasCol nm = false := fun nm hmem => by
    rw [hasCol_of_dropnaClose hdrop]
    exact hfresh nm hmem
  have hplot : plot_stock_data d1 t b1 p1 b2 p2 b3 b4 b5 = .ok
      [RenderItem.chart ⟨[⟨"Close Price", "blue", [], []⟩], [],
        some (t ++ " Stock Price"), some "Date", some "Price", some "plotly_dark"⟩] := by
    have hf1 := hfresh1 ("SMA_" ++ toString p1) (by simp [derivedNames])
    have hf2 := hfresh1 ("EMA_" ++ toString p2) (by simp [derivedNames])
    have hf3 := hfresh1 "BB_high" (by simp [derivedNames])
    have hf5 := hfresh1 "RSI" (by simp [derivedNames])
    have hf6 := hfresh1 "MACD" (by simp [derivedNames])
    rw [plot_spec d1 t b1 p1 b2 p2 b3 b4 b5 cv1 hcv1
      (fun hbb => by rw [hf3] at hbb; cases hbb)
      (fun hm => by rw [hf6] at hm; cases hm)]
    rw [hf1, hf2, hf3, hf5, hf6, hcv1', hidx]
    simp
  refine ⟨d1, hcalc, hlen, ?_, ?_⟩
  · rw [DataFrame.empty, hidx]
    rfl
  · unfold main_pipeline
    simp only [hsel, hget, hcalc, hplot]

/-- A one-row provider result whose only closing price is NaN. -/
def rNaN : FetchResult := .ok (some (.flat [0] [("Close", [none])]))

/-- The flattened frame of `rNaN`. -/
def dNaN : DataFrame := ⟨[0], [("Close", [none])]⟩

/-- Witness for C9 at a concrete all-NaN close column, with every indicator
enabled (windows 5). -/
theorem claim_C9_witness :
    ∃ d1, calculate_indicators taId (some dNaN) true 5 true 5 true true true =
        .ok (some d1) ∧
      d1.len = 0 ∧ d1.empty = true ∧
      main_pipeline taId "Apple (AAPL)" rNaN true 5 true 5 true true true = .plotted
        [RenderItem.chart ⟨[⟨"Close Price", "blue", [], []⟩], [],
          some ("AAPL" ++ " Stock Price"), some "Date", some "Price", some "plotly_dark"⟩] :=
  @claim_C9 taId "Apple (AAPL)" "AAPL" rNaN true 5 true 5 true true true dNaN [none]
    rfl rfl rfl (by decide) (by decide)

theorem lookup_mem_values (l : List (String × String)) (a b : String)
    (h : l.lookup a = some b) : b ∈ l.map Prod.snd := by
  induction l with
  | nil => cases h
  | cons c rest ih =>
    by_cases hak : (a == c.1) = true
    · simp only [List.lookup, hak] at h
      simp [Option.some.inj h]
    · have hak' : (a == c.1) = false := by
        revert hak; cases (a == c.1) <;> simp
      simp only [List.lookup, hak'] at h
      simp [ih h]

/-- Claim C10: through `main`'s own interface the ticker handed to
`get_stock_data` is `stock_list[selected_stock]`, and every value of the
hard-coded dropdown dictionary is one of the eight symbols — so an arbitrary
or invalid ticker string is unreachable from the dashboard's own UI. -/
theorem claim_C10 (sel t : String) (h : mainTicker sel = some t) :
    t ∈ ["AAPL", "TSLA", "AMZN", "MSFT", "GOOGL", "NVDA", "META", "NFLX"] := by
  unfold mainTicker at h
  have hmem := lookup_mem_values stock_list sel t h
  simpa [stock_list] using hmem

/-- Witness for C10 at the first dropdown entry. -/
theorem claim_C10_witness :
    "AAPL" ∈ ["AAPL", "TSLA", "AMZN", "MSFT", "GOOGL", "NVDA", "META", "NFLX"] :=
  claim_C10 "Apple (AAPL)" "AAPL" rfl

end StocksDashboard
